import Mathlib

/-!
Shallow embedding of the consensus-parameter governance module of
`types/params.go` (CometBFT fork).

Conventions of the embedding:
* Go `int64` fields are modelled as `Int` (the module performs no
  arithmetic on them, only comparisons and assignments, so no overflow
  is reachable); `time.Duration` is an `int64` nanosecond count, also `Int`;
  Go `uint64` is modelled as `Nat`.
* Protobuf messages (`cmtproto.*`) have nilable sub-message and field
  pointers; those are modelled as `Option`.  The wire types carry the
  `Proto` name prefix to separate them from the in-memory types.
* A Go function that can `panic` on a caller-contract violation is
  modelled with an `Option` result (`none` = panic); a function returning
  `error` is modelled with `Except String Unit`, keeping the static part
  of each message text.
-/

/-- `MaxBlockSizeBytes` is the maximum permitted size of the blocks (100 MiB). -/
def MaxBlockSizeBytes : Int := 100 * 1024 * 1024

/-- In-memory `BlockParams`. -/
structure BlockParams where
  MaxBytes : Int
  MaxGas : Int
deriving Repr, DecidableEq

/-- In-memory `EvidenceParams` (`MaxAgeDuration` in nanoseconds). -/
structure EvidenceParams where
  MaxAgeNumBlocks : Int
  MaxAgeDuration : Int
  MaxBytes : Int
deriving Repr, DecidableEq

/-- In-memory `ValidatorParams`. -/
structure ValidatorParams where
  PubKeyTypes : List String
deriving Repr, DecidableEq

/-- In-memory `VersionParams`. -/
structure VersionParams where
  App : Nat
deriving Repr, DecidableEq

/-- In-memory `ABCIParams`. -/
structure ABCIParams where
  VoteExtensionsEnableHeight : Int
deriving Repr, DecidableEq

/-- In-memory `PBTSParams`. -/
structure PBTSParams where
  PBTSEnableHeight : Int
deriving Repr, DecidableEq

/-- In-memory `SynchronyParams` (durations in nanoseconds). -/
structure SynchronyParams where
  Precision : Int
  MessageDelay : Int
deriving Repr, DecidableEq

/-- In-memory aggregate `ConsensusParams`. -/
structure ConsensusParams where
  Block : BlockParams
  Evidence : EvidenceParams
  Validator : ValidatorParams
  Version : VersionParams
  ABCI : ABCIParams
  Synchrony : SynchronyParams
  PBTS : PBTSParams
deriving Repr, DecidableEq

/-- Wire message `cmtproto.BlockParams`. -/
structure ProtoBlockParams where
  MaxBytes : Int
  MaxGas : Int
deriving Repr, DecidableEq

/-- Wire message `cmtproto.EvidenceParams`. -/
structure ProtoEvidenceParams where
  MaxAgeNumBlocks : Int
  MaxAgeDuration : Int
  MaxBytes : Int
deriving Repr, DecidableEq

/-- Wire message `cmtproto.ValidatorParams`. -/
structure ProtoValidatorParams where
  PubKeyTypes : List String
deriving Repr, DecidableEq

/-- Wire message `cmtproto.VersionParams`. -/
structure ProtoVersionParams where
  App : Nat
deriving Repr, DecidableEq

/-- Wire message `cmtproto.ABCIParams`. -/
structure ProtoABCIParams where
  VoteExtensionsEnableHeight : Int
deriving Repr, DecidableEq

/-- Wire message `cmtproto.SynchronyParams`; both duration fields are
nilable pointers on the wire. -/
structure ProtoSynchronyParams where
  MessageDelay : Option Int
  Precision : Option Int
deriving Repr, DecidableEq

/-- Wire message `cmtproto.PBTSParams`. -/
structure ProtoPBTSParams where
  PbtsEnableHeight : Int
deriving Repr, DecidableEq

/-- Wire message `cmtproto.ConsensusParams`; every sub-message is nilable. -/
structure ProtoConsensusParams where
  Block : Option ProtoBlockParams
  Evidence : Option ProtoEvidenceParams
  Validator : Option ProtoValidatorParams
  Version : Option ProtoVersionParams
  Abci : Option ProtoABCIParams
  Synchrony : Option ProtoSynchronyParams
  Pbts : Option ProtoPBTSParams
deriving Repr, DecidableEq

/-- `ABCIPubKeyTypesToNames`: the fixed key-type registry (key-type
identifier, canonical display name). -/
def ABCIPubKeyTypesToNames : List (String × String) :=
  [("ed25519", "tendermint/PubKeyEd25519"),
   ("secp256k1", "tendermint/PubKeySecp256k1")]

/-- `DefaultBlockParams` returns a default `BlockParams`. -/
def DefaultBlockParams : BlockParams :=
  { MaxBytes := 4194304, MaxGas := 10000000 }

/-- `DefaultEvidenceParams` returns a default `EvidenceParams`
(48 hours in nanoseconds). -/
def DefaultEvidenceParams : EvidenceParams :=
  { MaxAgeNumBlocks := 100000, MaxAgeDuration := 172800000000000, MaxBytes := 1048576 }

/-- `DefaultValidatorParams` allows only ed25519 pubkeys. -/
def DefaultValidatorParams : ValidatorParams :=
  { PubKeyTypes := ["ed25519"] }

/-- `DefaultVersionParams`. -/
def DefaultVersionParams : VersionParams :=
  { App := 0 }

/-- `DefaultABCIParams`: vote extensions disabled. -/
def DefaultABCIParams : ABCIParams :=
  { VoteExtensionsEnableHeight := 0 }

/-- `DefaultSynchronyParams` (500 ms and 2 s in nanoseconds). -/
def DefaultSynchronyParams : SynchronyParams :=
  { Precision := 500000000, MessageDelay := 2000000000 }

/-- `DefaultPBTSParams`: disabled by default. -/
def DefaultPBTSParams : PBTSParams :=
  { PBTSEnableHeight := 0 }

/-- `DefaultConsensusParams` returns a default `ConsensusParams`. -/
def DefaultConsensusParams : ConsensusParams :=
  { Block := DefaultBlockParams
    Evidence := DefaultEvidenceParams
    Validator := DefaultValidatorParams
    Version := DefaultVersionParams
    ABCI := DefaultABCIParams
    Synchrony := DefaultSynchronyParams
    PBTS := DefaultPBTSParams }

/-- `VoteExtensionsEnabled` returns true if vote extensions are enabled at
height `h` and false otherwise; `none` models the panic for `h < 1`. -/
def ABCIParams.VoteExtensionsEnabled (a : ABCIParams) (h : Int) : Option Bool :=
  if h < 1 then none
  else if a.VoteExtensionsEnableHeight = 0 then some false
  else some (decide (a.VoteExtensionsEnableHeight ≤ h))

/-- `PBTSEnabled` returns true if PBTS is enabled at height `h` and false
otherwise; `none` models the panic for `h < 1`. -/
def PBTSParams.PBTSEnabled (p : PBTSParams) (h : Int) : Option Bool :=
  if h < 1 then none
  else if p.PBTSEnableHeight = 0 then some false
  else some (decide (p.PBTSEnableHeight ≤ h))

/-- `IsValidPubkeyType`: linear scan of `params.PubKeyTypes`. -/
def IsValidPubkeyType (params : ValidatorParams) (pubkeyType : String) : Bool :=
  params.PubKeyTypes.any (fun t => t == pubkeyType)

/-- `ValidateBasic` validates the `ConsensusParams` to ensure all values are
within their allowed limits; the error strings keep the static part of the
Go `fmt.Errorf` format strings.  The first failing check wins, exactly as
the sequence of early returns in the source. -/
def ConsensusParams.ValidateBasic (params : ConsensusParams) : Except String Unit :=
  if params.Block.MaxBytes = 0 then
    .error "block.MaxBytes cannot be 0"
  else if params.Block.MaxBytes < -1 then
    .error "block.MaxBytes must be -1 or greater than 0"
  else if params.Block.MaxBytes > MaxBlockSizeBytes then
    .error "block.MaxBytes is too big"
  else if params.Block.MaxGas < -1 then
    .error "block.MaxGas must be greater or equal to -1"
  else if params.Evidence.MaxAgeNumBlocks ≤ 0 then
    .error "evidence.MaxAgeNumBlocks must be greater than 0"
  else if params.Evidence.MaxAgeDuration ≤ 0 then
    .error "evidence.MaxAgeDuration must be greater than 0 if provided"
  else if params.Evidence.MaxBytes >
      (if params.Block.MaxBytes = -1 then MaxBlockSizeBytes else params.Block.MaxBytes) then
    .error "evidence.MaxBytesEvidence is greater than upper bound"
  else if params.Evidence.MaxBytes < 0 then
    .error "evidence.MaxBytes must be non negative"
  else if params.ABCI.VoteExtensionsEnableHeight < 0 then
    .error "ABCI.VoteExtensionsEnableHeight cannot be negative"
  else if params.Synchrony.MessageDelay ≤ 0 then
    .error "synchrony.MessageDelay must be greater than 0"
  else if params.Synchrony.Precision ≤ 0 then
    .error "synchrony.Precision must be greater than 0"
  else if params.PBTS.PBTSEnableHeight < 0 then
    .error "PBTS.PBTSEnableHeight must not be negative"
  else if params.Validator.PubKeyTypes.length = 0 then
    .error "len(Validator.PubKeyTypes) must be greater than 0"
  else if params.Validator.PubKeyTypes.all
      (fun keyType => ABCIPubKeyTypesToNames.any (fun kv => kv.1 == keyType)) then
    .ok ()
  else
    .error "is an unknown pubkey type"

/-- `validateUpdateABCI`; the Go function receives the whole wire message
with a caller guarantee that its `Abci` sub-message is non-nil, so the
embedding takes that sub-message directly.  NOTE: the final check of the
source compares `params.ABCI.VoteExtensionsEnableHeight <= h` without a
`!= 0` guard; the embedding reproduces the source exactly. -/
def validateUpdateABCI (params : ConsensusParams) (abci : ProtoABCIParams)
    (h : Int) : Except String Unit :=
  if params.ABCI.VoteExtensionsEnableHeight = abci.VoteExtensionsEnableHeight then
    .ok ()
  else if params.ABCI.VoteExtensionsEnableHeight ≠ 0 ∧ abci.VoteExtensionsEnableHeight = 0 then
    .error "vote extensions cannot be disabled once enabled"
  else if abci.VoteExtensionsEnableHeight ≤ h then
    .error "VoteExtensionsEnableHeight cannot be updated to a past height"
  else if params.ABCI.VoteExtensionsEnableHeight ≤ h then
    .error "VoteExtensionsEnableHeight cannot be modified once the initial height has occurred"
  else
    .ok ()

/-- `validateUpdatePBTS`; as with `validateUpdateABCI`, the caller
guarantees the `Pbts` sub-message is non-nil. -/
def validateUpdatePBTS (params : ConsensusParams) (pbts : ProtoPBTSParams)
    (h : Int) : Except String Unit :=
  if params.PBTS.PBTSEnableHeight ≠ 0 then
    .error "pbts already enabled"
  else if pbts.PbtsEnableHeight ≤ h then
    .error "PbtsEnableHeight cannot be updated to a past height"
  else
    .ok ()

/-- `ValidateUpdate`: delegates to `validateUpdateABCI` when the `Abci`
sub-message is present (returning its error immediately), then to
`validateUpdatePBTS` when the `Pbts` sub-message is present. -/
def ConsensusParams.ValidateUpdate (params : ConsensusParams)
    (updated : ProtoConsensusParams) (h : Int) : Except String Unit :=
  match updated.Abci with
  | some abci =>
    match validateUpdateABCI params abci h with
    | .error e => .error e
    | .ok () =>
      match updated.Pbts with
      | some pbts => validateUpdatePBTS params pbts h
      | none => .ok ()
  | none =>
    match updated.Pbts with
    | some pbts => validateUpdatePBTS params pbts h
    | none => .ok ()

/-- `Update` returns a copy of the params with updates from the non-nil
sub-messages of `params2` (a nil `params2` returns the input unchanged). -/
def ConsensusParams.Update (params : ConsensusParams)
    (params2 : Option ProtoConsensusParams) : ConsensusParams :=
  match params2 with
  | none => params
  | some p2 =>
    let res := params
    let res := match p2.Block with
      | some b => { res with Block := { MaxBytes := b.MaxBytes, MaxGas := b.MaxGas } }
      | none => res
    let res := match p2.Evidence with
      | some e => { res with Evidence :=
          { MaxAgeNumBlocks := e.MaxAgeNumBlocks
            MaxAgeDuration := e.MaxAgeDuration
            MaxBytes := e.MaxBytes } }
      | none => res
    let res := match p2.Validator with
      | some v => { res with Validator := { PubKeyTypes := v.PubKeyTypes } }
      | none => res
    let res := match p2.Version with
      | some v => { res with Version := { App := v.App } }
      | none => res
    let res := match p2.Abci with
      | some a => { res with ABCI := { VoteExtensionsEnableHeight := a.VoteExtensionsEnableHeight } }
      | none => res
    let res := match p2.Synchrony with
      | some s =>
        let res := match s.MessageDelay with
          | some md => { res with Synchrony := { res.Synchrony with MessageDelay := md } }
          | none => res
        match s.Precision with
          | some pr => { res with Synchrony := { res.Synchrony with Precision := pr } }
          | none => res
      | none => res
    match p2.Pbts with
      | some pb => { res with PBTS := { PBTSEnableHeight := pb.PbtsEnableHeight } }
      | none => res

/-- `ToProto`: always produces fully populated sub-messages. -/
def ConsensusParams.ToProto (params : ConsensusParams) : ProtoConsensusParams :=
  { Block := some { MaxBytes := params.Block.MaxBytes, MaxGas := params.Block.MaxGas }
    Evidence := some
      { MaxAgeNumBlocks := params.Evidence.MaxAgeNumBlocks
        MaxAgeDuration := params.Evidence.MaxAgeDuration
        MaxBytes := params.Evidence.MaxBytes }
    Validator := some { PubKeyTypes := params.Validator.PubKeyTypes }
    Version := some { App := params.Version.App }
    Abci := some { VoteExtensionsEnableHeight := params.ABCI.VoteExtensionsEnableHeight }
    Synchrony := some
      { MessageDelay := some params.Synchrony.MessageDelay
        Precision := some params.Synchrony.Precision }
    Pbts := some { PbtsEnableHeight := params.PBTS.PBTSEnableHeight } }

/-- Big-endian byte list of length `n` of the value `v` (most significant
byte first). -/
def bigEndianBytes : Nat → Nat → List Nat
  | 0, _ => []
  | m + 1, v => bigEndianBytes m (v / 256) ++ [v % 256]

/-- Right-rotation of a 32-bit word held in a `Nat`. -/
def rotr32 (x r : Nat) : Nat :=
  (x / 2 ^ r + x % 2 ^ r * 2 ^ (32 - r)) % 2 ^ 32

/-- Logical right shift of a 32-bit word. -/
def shiftr32 (x r : Nat) : Nat := x / 2 ^ r

/-- SHA-256 round constants (FIPS 180-4, written in decimal). -/
def sha256K : List Nat :=
  [1116352408, 1899447441, 3049323471, 3921009573, 961987163,
   1508970993, 2453635748, 2870763221, 3624381080, 310598401,
   607225278, 1426881987, 1925078388, 2162078206, 2614888103,
   3248222580, 3835390401, 4022224774, 264347078, 604807628,
   770255983, 1249150122, 1555081692, 1996064986, 2554220882,
   2821834349, 2952996808, 3210313671, 3336571891, 3584528711,
   113926993, 338241895, 666307205, 773529912, 1294757372,
   1396182291, 1695183700, 1986661051, 2177026350, 2456956037,
   2730485921, 2820302411, 3259730800, 3345764771, 3516065817,
   3600352804, 4094571909, 275423344, 430227734, 506948616,
   659060556, 883997877, 958139571, 1322822218, 1537002063,
   1747873779, 1955562222, 2024104815, 2227730452, 2361852424,
   2428436474, 2756734187, 3204031479, 3329325298]

/-- SHA-256 initial hash state (FIPS 180-4, written in decimal). -/
def sha256H0 : List Nat :=
  [1779033703, 3144134277, 1013904242, 2773480762,
   1359893119, 2600822924, 528734635, 1541459225]

/-- Group a byte list into big-endian 32-bit words. -/
def bytesToWords : List Nat → List Nat
  | b0 :: b1 :: b2 :: b3 :: rest =>
    (((b0 * 256 + b1) * 256 + b2) * 256 + b3) :: bytesToWords rest
  | _ => []

/-- Extend a 16-word block to the 64-word SHA-256 message schedule. -/
def sha256Extend (ws : List Nat) : List Nat :=
  (List.range 48).foldl (fun w i =>
    let w15 := w.getD (i + 1) 0
    let w2 := w.getD (i + 14) 0
    let s0 := (rotr32 w15 7) ^^^ (rotr32 w15 18) ^^^ (shiftr32 w15 3)
    let s1 := (rotr32 w2 17) ^^^ (rotr32 w2 19) ^^^ (shiftr32 w2 10)
    w ++ [(w.getD i 0 + s0 + w.getD (i + 9) 0 + s1) % 2 ^ 32]) ws

/-- One SHA-256 compression round on the 8-word state. -/
def sha256Round (st : List Nat) (kw : Nat × Nat) : List Nat :=
  match st with
  | [a, b, c, d, e, f, g, hh] =>
    let S1 := (rotr32 e 6) ^^^ (rotr32 e 11) ^^^ (rotr32 e 25)
    let ch := (e &&& f) ^^^ ((e ^^^ (2 ^ 32 - 1)) &&& g)
    let temp1 := (hh + S1 + ch + kw.1 + kw.2) % 2 ^ 32
    let S0 := (rotr32 a 2) ^^^ (rotr32 a 13) ^^^ (rotr32 a 22)
    let maj := (a &&& b) ^^^ (a &&& c) ^^^ (b &&& c)
    let temp2 := (S0 + maj) % 2 ^ 32
    [(temp1 + temp2) % 2 ^ 32, a, b, c, (d + temp1) % 2 ^ 32, e, f, g]
  | other => other

/-- SHA-256 compression of one 16-word block into the running hash state. -/
def sha256Compress (hs ws : List Nat) : List Nat :=
  let final := (sha256K.zip (sha256Extend ws)).foldl sha256Round hs
  (hs.zip final).map (fun p => (p.1 + p.2) % 2 ^ 32)

/-- SHA-256 padding: append `0x80`, zeros and the 64-bit big-endian bit
length so the total length is a multiple of 64 bytes. -/
def sha256Pad (msg : List Nat) : List Nat :=
  let L := msg.length
  let k := (119 - L % 64) % 64
  msg ++ 128 :: List.replicate k 0 ++ bigEndianBytes 8 (8 * L)

/-- Split a byte list into 64-byte chunks; the fuel argument is an upper
bound on the number of chunks (the caller passes the list length, which
always suffices since every step consumes at least one element). -/
def chunks64Aux : Nat → List Nat → List (List Nat)
  | _, [] => []
  | 0, l => [l.take 64]
  | fuel + 1, l => l.take 64 :: chunks64Aux fuel (l.drop 64)

/-- Split a byte list into 64-byte chunks. -/
def chunks64 (l : List Nat) : List (List Nat) :=
  chunks64Aux l.length l

/-- SHA-256 of a byte list, as a 32-byte list. -/
def sha256 (msg : List Nat) : List Nat :=
  ((chunks64 (sha256Pad msg)).foldl
    (fun hs chunk => sha256Compress hs (bytesToWords chunk)) sha256H0).map
    (fun w => bigEndianBytes 4 w) |>.flatten

/-- Unsigned protobuf varint encoding (little-endian base-128); the fuel
argument bounds the number of output bytes (the caller passes the value
itself, which always suffices since the value at least halves each step). -/
def encodeVarintAux : Nat → Nat → List Nat
  | 0, n => [n]
  | fuel + 1, n =>
    if n < 128 then [n]
    else (n % 128 + 128) :: encodeVarintAux fuel (n / 128)

/-- Unsigned protobuf varint encoding (little-endian base-128). -/
def encodeVarint (n : Nat) : List Nat :=
  encodeVarintAux n n

/-- Go `uint64(x)` of an `int64` value: two's-complement reinterpretation. -/
def int64ToUint64 (x : Int) : Nat := (x % (2 ^ 64 : Int)).toNat

/-- Wire message `cmtproto.HashedParams`: the minimal canonical record that
is hashed into the block header. -/
structure HashedParams where
  BlockMaxBytes : Int
  BlockMaxGas : Int
deriving Repr, DecidableEq

/-- Protobuf encoding of `HashedParams`: proto3 omits zero-valued fields;
field 1 (`block_max_bytes`, tag byte 0x08) and field 2 (`block_max_gas`,
tag byte 0x10) are int64 varints. -/
def HashedParams.Marshal (hp : HashedParams) : List Nat :=
  (if hp.BlockMaxBytes = 0 then [] else 8 :: encodeVarint (int64ToUint64 hp.BlockMaxBytes)) ++
  (if hp.BlockMaxGas = 0 then [] else 16 :: encodeVarint (int64ToUint64 hp.BlockMaxGas))

/-- `Hash` returns a hash of a subset of the parameters: only
`Block.MaxBytes` and `Block.MaxGas` are marshalled into a `HashedParams`
record and digested with SHA-256 (`tmhash`). -/
def ConsensusParams.Hash (params : ConsensusParams) : List Nat :=
  sha256 (HashedParams.Marshal
    { BlockMaxBytes := params.Block.MaxBytes, BlockMaxGas := params.Block.MaxGas })

/-- `ConsensusParamsFromProto`: the Block, Evidence, Validator and Version
sub-messages are dereferenced unconditionally in the source (absence is a
nil-pointer fault, modelled as `none`); Abci, Synchrony and Pbts are
optional and default to zero/disabled when absent. -/
def ConsensusParamsFromProto (pbParams : ProtoConsensusParams) : Option ConsensusParams :=
  match pbParams.Block, pbParams.Evidence, pbParams.Validator, pbParams.Version with
  | some b, some e, some v, some ver =>
    let c : ConsensusParams :=
      { Block := { MaxBytes := b.MaxBytes, MaxGas := b.MaxGas }
        Evidence :=
          { MaxAgeNumBlocks := e.MaxAgeNumBlocks
            MaxAgeDuration := e.MaxAgeDuration
            MaxBytes := e.MaxBytes }
        Validator := { PubKeyTypes := v.PubKeyTypes }
        Version := { App := ver.App }
        ABCI := { VoteExtensionsEnableHeight := 0 }
        Synchrony := { Precision := 0, MessageDelay := 0 }
        PBTS := { PBTSEnableHeight := 0 } }
    let c := match pbParams.Abci with
      | some a => { c with ABCI := { VoteExtensionsEnableHeight := a.VoteExtensionsEnableHeight } }
      | none => c
    let c := match pbParams.Synchrony with
      | some s =>
        let c := match s.MessageDelay with
          | some md => { c with Synchrony := { c.Synchrony with MessageDelay := md } }
          | none => c
        match s.Precision with
          | some pr => { c with Synchrony := { c.Synchrony with Precision := pr } }
          | none => c
      | none => c
    some (match pbParams.Pbts with
      | some pb => { c with PBTS := { PBTSEnableHeight := pb.PbtsEnableHeight } }
      | none => c)
  | _, _, _, _ => none

/-! ## General lemmas about the embedded operations -/

/-- When the delta's `Abci` sub-message is present and its sub-check fails,
`ValidateUpdate` returns that failure immediately (the `Pbts` sub-message is
never consulted). -/
theorem ValidateUpdate_abci_error (params : ConsensusParams) (d : ProtoConsensusParams)
    (h : Int) (a : ProtoABCIParams) (e : String)
    (ha : d.Abci = some a) (herr : validateUpdateABCI params a h = .error e) :
    params.ValidateUpdate d h = .error e := by
  simp [ConsensusParams.ValidateUpdate, ha, herr]

/-- `validateUpdateABCI` fails whenever the proposed value differs from the
current one and the current value is at most `h`. -/
theorem validateUpdateABCI_error_of_le (params : ConsensusParams) (next h : Int)
    (hle : params.ABCI.VoteExtensionsEnableHeight ≤ h)
    (hne : next ≠ params.ABCI.VoteExtensionsEnableHeight) :
    ∃ e, validateUpdateABCI params { VoteExtensionsEnableHeight := next } h = .error e := by
  simp only [validateUpdateABCI]
  split_ifs with h1 h2 h3 h4 <;>
    first
      | exact absurd h1.symm hne
      | exact ⟨_, rfl⟩
      | omega

/-! ## Claim theorems -/

/-- C10: `ValidateUpdate` succeeds for every delta whose `Abci` and `Pbts`
sub-messages are both absent, for every current parameter set and height
`h ≥ 1`, regardless of what the other sub-messages carry. -/
theorem validate_update_ignores_non_feature_groups (params : ConsensusParams)
    (delta : ProtoConsensusParams) (h : Int) (hh : 1 ≤ h)
    (ha : delta.Abci = none) (hp : delta.Pbts = none) :
    params.ValidateUpdate delta h = .ok () := by
  simp [ConsensusParams.ValidateUpdate, ha, hp]

/-- Witness for C10: a delta touching only Block (with a value that would
fail `ValidateBasic` after merging) is accepted by `ValidateUpdate`. -/
theorem validate_update_ignores_non_feature_groups_witness :
    ConsensusParams.ValidateUpdate DefaultConsensusParams
      { Block := some { MaxBytes := 0, MaxGas := -5 }, Evidence := none,
        Validator := none, Version := none, Abci := none, Synchrony := none,
        Pbts := none } 7 = .ok () :=
  validate_update_ignores_non_feature_groups DefaultConsensusParams _ 7
    (by decide) rfl rfl

/-- C8: the activation predicates fault (modelled `none`) for height < 1,
return `false` when the enable-height field is 0, and otherwise return the
truth value of `enableHeight ≤ h`, both for vote extensions and PBTS. -/
theorem enabled_predicate_spec (a : ABCIParams) (p : PBTSParams) (h : Int) :
    (h < 1 → a.VoteExtensionsEnabled h = none ∧ p.PBTSEnabled h = none) ∧
    (1 ≤ h → a.VoteExtensionsEnableHeight = 0 → a.VoteExtensionsEnabled h = some false) ∧
    (1 ≤ h → a.VoteExtensionsEnableHeight ≠ 0 →
      a.VoteExtensionsEnabled h = some (decide (a.VoteExtensionsEnableHeight ≤ h))) ∧
    (1 ≤ h → p.PBTSEnableHeight = 0 → p.PBTSEnabled h = some false) ∧
    (1 ≤ h → p.PBTSEnableHeight ≠ 0 →
      p.PBTSEnabled h = some (decide (p.PBTSEnableHeight ≤ h))) := by
  refine ⟨fun hl => ?_, fun hg h0 => ?_, fun hg h0 => ?_, fun hg h0 => ?_, fun hg h0 => ?_⟩ <;>
    simp only [ABCIParams.VoteExtensionsEnabled, PBTSParams.PBTSEnabled] <;>
    split_ifs <;>
    first
      | exact ⟨rfl, rfl⟩
      | rfl
      | omega
      | simp_all

/-- Witness for C8 at `h = 5`, vote-extension enable height 3, PBTS enable
height 9. -/
theorem enabled_predicate_spec_witness :
    ((5 : Int) < 1 →
      ABCIParams.VoteExtensionsEnabled { VoteExtensionsEnableHeight := 3 } 5 = none ∧
      PBTSParams.PBTSEnabled { PBTSEnableHeight := 9 } 5 = none) ∧
    ((1 : Int) ≤ 5 → (3 : Int) = 0 →
      ABCIParams.VoteExtensionsEnabled { VoteExtensionsEnableHeight := 3 } 5 = some false) ∧
    ((1 : Int) ≤ 5 → (3 : Int) ≠ 0 →
      ABCIParams.VoteExtensionsEnabled { VoteExtensionsEnableHeight := 3 } 5 =
        some (decide ((3 : Int) ≤ 5))) ∧
    ((1 : Int) ≤ 5 → (9 : Int) = 0 →
      PBTSParams.PBTSEnabled { PBTSEnableHeight := 9 } 5 = some false) ∧
    ((1 : Int) ≤ 5 → (9 : Int) ≠ 0 →
      PBTSParams.PBTSEnabled { PBTSEnableHeight := 9 } 5 =
        some (decide ((9 : Int) ≤ 5))) :=
  enabled_predicate_spec { VoteExtensionsEnableHeight := 3 } { PBTSEnableHeight := 9 } 5

/-- C4: once the current vote-extension enable height is nonzero, any delta
whose `Abci` sub-message proposes 0 is rejected by `ValidateUpdate` with the
"cannot be disabled" failure, at any height. -/
theorem vote_ext_disable_rejected (params : ConsensusParams) (delta : ProtoConsensusParams)
    (h : Int) (hh : 1 ≤ h) (h0 : params.ABCI.VoteExtensionsEnableHeight ≠ 0)
    (ha : delta.Abci = some { VoteExtensionsEnableHeight := 0 }) :
    params.ValidateUpdate delta h =
      .error "vote extensions cannot be disabled once enabled" := by
  refine ValidateUpdate_abci_error params delta h _ _ ha ?_
  simp [validateUpdateABCI, h0]

/-- C5: encode/decode round trip.  `ConsensusParamsFromProto ∘ ToProto` is
the identity on every parameter set; and decoding a wire message whose
`Abci`, `Synchrony` and `Pbts` sub-messages are absent (the required four
being present) yields a set whose vote-extension enable height, synchrony
precision, synchrony message delay and PBTS enable height are all 0. -/
theorem codec_round_trip (p : ConsensusParams) (pb : ProtoConsensusParams)
    (b : ProtoBlockParams) (e : ProtoEvidenceParams) (v : ProtoValidatorParams)
    (ver : ProtoVersionParams)
    (hb : pb.Block = some b) (he : pb.Evidence = some e)
    (hv : pb.Validator = some v) (hver : pb.Version = some ver)
    (ha : pb.Abci = none) (hs : pb.Synchrony = none) (hpb : pb.Pbts = none) :
    ConsensusParamsFromProto p.ToProto = some p ∧
    ConsensusParamsFromProto pb = some
      { Block := { MaxBytes := b.MaxBytes, MaxGas := b.MaxGas }
        Evidence :=
          { MaxAgeNumBlocks := e.MaxAgeNumBlocks
            MaxAgeDuration := e.MaxAgeDuration
            MaxBytes := e.MaxBytes }
        Validator := { PubKeyTypes := v.PubKeyTypes }
        Version := { App := ver.App }
        ABCI := { VoteExtensionsEnableHeight := 0 }
        Synchrony := { Precision := 0, MessageDelay := 0 }
        PBTS := { PBTSEnableHeight := 0 } } := by
  constructor
  · rfl
  · simp [ConsensusParamsFromProto, hb, he, hv, hver, ha, hs, hpb]

/-- Witness for C5: the default set round-trips, and a minimal wire message
omitting the optional sub-messages decodes to disabled features. -/
theorem codec_round_trip_witness :
    ConsensusParamsFromProto DefaultConsensusParams.ToProto =
      some DefaultConsensusParams ∧
    ConsensusParamsFromProto
      { Block := some { MaxBytes := 7, MaxGas := -1 },
        Evidence := some { MaxAgeNumBlocks := 3, MaxAgeDuration := 4, MaxBytes := 5 },
        Validator := some { PubKeyTypes := ["ed25519"] },
        Version := some { App := 2 },
        Abci := none, Synchrony := none, Pbts := none } = some
      { Block := { MaxBytes := 7, MaxGas := -1 }
        Evidence := { MaxAgeNumBlocks := 3, MaxAgeDuration := 4, MaxBytes := 5 }
        Validator := { PubKeyTypes := ["ed25519"] }
        Version := { App := 2 }
        ABCI := { VoteExtensionsEnableHeight := 0 }
        Synchrony := { Precision := 0, MessageDelay := 0 }
        PBTS := { PBTSEnableHeight := 0 } } :=
  codec_round_trip DefaultConsensusParams
    { Block := some { MaxBytes := 7, MaxGas := -1 },
      Evidence := some { MaxAgeNumBlocks := 3, MaxAgeDuration := 4, MaxBytes := 5 },
      Validator := some { PubKeyTypes := ["ed25519"] },
      Version := some { App := 2 },
      Abci := none, Synchrony := none, Pbts := none }
    { MaxBytes := 7, MaxGas := -1 }
    { MaxAgeNumBlocks := 3, MaxAgeDuration := 4, MaxBytes := 5 }
    { PubKeyTypes := ["ed25519"] }
    { App := 2 }
    rfl rfl rfl rfl rfl rfl rfl

/-- C6: `Hash` reads only `Block.MaxBytes` and `Block.MaxGas`: two sets
agreeing on those two fields hash to identical byte strings, however much
they differ elsewhere, and hashing the same set twice gives the same
digest. -/
theorem hash_depends_only_on_block_limits (p1 p2 : ConsensusParams)
    (hb : p1.Block.MaxBytes = p2.Block.MaxBytes)
    (hg : p1.Block.MaxGas = p2.Block.MaxGas) :
    p1.Hash = p2.Hash ∧ p1.Hash = p1.Hash := by
  refine ⟨?_, rfl⟩
  simp only [ConsensusParams.Hash, hb, hg]

/-- Witness for C6: two default-sized sets differing in
`Evidence.MaxAgeDuration` (spec scenario 5). -/
theorem hash_depends_only_on_block_limits_witness :
    ConsensusParams.Hash DefaultConsensusParams =
      ConsensusParams.Hash
        { DefaultConsensusParams with
            Evidence := { DefaultEvidenceParams with MaxAgeDuration := 1 } } ∧
    ConsensusParams.Hash DefaultConsensusParams =
      ConsensusParams.Hash DefaultConsensusParams :=
  hash_depends_only_on_block_limits _ _ rfl rfl

/-- C7: `Update` is a pure function — it returns a new value and leaves its
input untouched by construction.  Component-wise: every sub-group absent
from the delta appears unchanged in the result; a nil delta returns the
input; and the all-absent delta is a true no-op. -/
theorem update_frame_properties (p : ConsensusParams) (d : ProtoConsensusParams) :
    (d.Block = none → (p.Update (some d)).Block = p.Block) ∧
    (d.Evidence = none → (p.Update (some d)).Evidence = p.Evidence) ∧
    (d.Validator = none → (p.Update (some d)).Validator = p.Validator) ∧
    (d.Version = none → (p.Update (some d)).Version = p.Version) ∧
    (d.Abci = none → (p.Update (some d)).ABCI = p.ABCI) ∧
    (d.Synchrony = none → (p.Update (some d)).Synchrony = p.Synchrony) ∧
    (d.Pbts = none → (p.Update (some d)).PBTS = p.PBTS) ∧
    p.Update none = p ∧
    (d = { Block := none, Evidence := none, Validator := none, Version := none,
           Abci := none, Synchrony := none, Pbts := none } →
      p.Update (some d) = p) := by
  obtain ⟨blk, ev, val, ver, ab, syn, pb⟩ := d
  refine ⟨?_, ?_, ?_, ?_, ?_, ?_, ?_, rfl, ?_⟩ <;>
    intro hyp <;>
    rcases blk with _ | blk <;>
    rcases ev with _ | ev <;>
    rcases val with _ | val <;>
    rcases ver with _ | ver <;>
    rcases ab with _ | ab <;>
    rcases syn with _ | ⟨_ | md, _ | pr⟩ <;>
    rcases pb with _ | pb <;>
    first
      | rfl
      | simp_all

/-- Witness for C7 at the default set and the all-absent delta. -/
theorem update_frame_properties_witness :
    ((ProtoConsensusParams.Block
        { Block := none, Evidence := none, Validator := none, Version := none,
          Abci := none, Synchrony := none, Pbts := none } = none →
      (DefaultConsensusParams.Update (some
        { Block := none, Evidence := none, Validator := none, Version := none,
          Abci := none, Synchrony := none, Pbts := none })).Block =
        DefaultConsensusParams.Block) ∧
    (ProtoConsensusParams.Evidence
        { Block := none, Evidence := none, Validator := none, Version := none,
          Abci := none, Synchrony := none, Pbts := none } = none →
      (DefaultConsensusParams.Update (some
        { Block := none, Evidence := none, Validator := none, Version := none,
          Abci := none, Synchrony := none, Pbts := none })).Evidence =
        DefaultConsensusParams.Evidence) ∧
    (ProtoConsensusParams.Validator
        { Block := none, Evidence := none, Validator := none, Version := none,
          Abci := none, Synchrony := none, Pbts := none } = none →
      (DefaultConsensusParams.Update (some
        { Block := none, Evidence := none, Validator := none, Version := none,
          Abci := none, Synchrony := none, Pbts := none })).Validator =
        DefaultConsensusParams.Validator) ∧
    (ProtoConsensusParams.Version
        { Block := none, Evidence := none, Validator := none, Version := none,
          Abci := none, Synchrony := none, Pbts := none } = none →
      (DefaultConsensusParams.Update (some
        { Block := none, Evidence := none, Validator := none, Version := none,
          Abci := none, Synchrony := none, Pbts := none })).Version =
        DefaultConsensusParams.Version) ∧
    (ProtoConsensusParams.Abci
        { Block := none, Evidence := none, Validator := none, Version := none,
          Abci := none, Synchrony := none, Pbts := none } = none →
      (DefaultConsensusParams.Update (some
        { Block := none, Evidence := none, Validator := none, Version := none,
          Abci := none, Synchrony := none, Pbts := none })).ABCI =
        DefaultConsensusParams.ABCI) ∧
    (ProtoConsensusParams.Synchrony
        { Block := none, Evidence := none, Validator := none, Version := none,
          Abci := none, Synchrony := none, Pbts := none } = none →
      (DefaultConsensusParams.Update (some
        { Block := none, Evidence := none, Validator := none, Version := none,
          Abci := none, Synchrony := none, Pbts := none })).Synchrony =
        DefaultConsensusParams.Synchrony) ∧
    (ProtoConsensusParams.Pbts
        { Block := none, Evidence := none, Validator := none, Version := none,
          Abci := none, Synchrony := none, Pbts := none } = none →
      (DefaultConsensusParams.Update (some
        { Block := none, Evidence := none, Validator := none, Version := none,
          Abci := none, Synchrony := none, Pbts := none })).PBTS =
        DefaultConsensusParams.PBTS) ∧
    DefaultConsensusParams.Update none = DefaultConsensusParams ∧
    ({ Block := none, Evidence := none, Validator := none, Version := none,
       Abci := none, Synchrony := none, Pbts := none } =
     ({ Block := none, Evidence := none, Validator := none, Version := none,
        Abci := none, Synchrony := none, Pbts := none } : ProtoConsensusParams) →
      DefaultConsensusParams.Update (some
        { Block := none, Evidence := none, Validator := none, Version := none,
          Abci := none, Synchrony := none, Pbts := none }) =
        DefaultConsensusParams)) :=
  update_frame_properties DefaultConsensusParams
    { Block := none, Evidence := none, Validator := none, Version := none,
      Abci := none, Synchrony := none, Pbts := none }

/-- C9 counterexample: a parameter set that is the default except for
`Evidence.MaxBytes = 0` PASSES `ValidateBasic` — the source only enforces
`Evidence.MaxBytes ≥ 0`, not `> 0`, contradicting the claim that such a
set is rejected. -/
theorem evidence_maxbytes_zero_accepted_cex :
    ConsensusParams.ValidateBasic
      { DefaultConsensusParams with
          Evidence := { DefaultEvidenceParams with MaxBytes := 0 } } = .ok () := rfl

set_option maxHeartbeats 2000000 in
/-- C9 amended: `ValidateBasic` enforces `Evidence.MaxAgeNumBlocks > 0` and
`Evidence.MaxAgeDuration > 0`, but for `Evidence.MaxBytes` only
non-negativity (together with the upper bound against the effective block
size); in particular a set with `Evidence.MaxBytes = 0` and all other
fields valid is accepted. -/
theorem evidence_bounds_enforced (params : ConsensusParams) :
    (params.Evidence.MaxAgeNumBlocks ≤ 0 → ∃ e, params.ValidateBasic = .error e) ∧
    (params.Evidence.MaxAgeDuration ≤ 0 → ∃ e, params.ValidateBasic = .error e) ∧
    (params.Evidence.MaxBytes < 0 → ∃ e, params.ValidateBasic = .error e) ∧
    (params.ValidateBasic = .ok () →
      0 < params.Evidence.MaxAgeNumBlocks ∧ 0 < params.Evidence.MaxAgeDuration ∧
      0 ≤ params.Evidence.MaxBytes) := by
  have h1 : params.Evidence.MaxAgeNumBlocks ≤ 0 →
      ∃ e, params.ValidateBasic = .error e := by
    intro hc
    simp only [ConsensusParams.ValidateBasic]
    split_ifs <;> first | exact ⟨_, rfl⟩ | omega
  have h2 : params.Evidence.MaxAgeDuration ≤ 0 →
      ∃ e, params.ValidateBasic = .error e := by
    intro hc
    simp only [ConsensusParams.ValidateBasic]
    split_ifs <;> first | exact ⟨_, rfl⟩ | omega
  have h3 : params.Evidence.MaxBytes < 0 →
      ∃ e, params.ValidateBasic = .error e := by
    intro hc
    simp only [ConsensusParams.ValidateBasic]
    split_ifs <;> first | exact ⟨_, rfl⟩ | omega
  refine ⟨h1, h2, h3, fun hok => ⟨?_, ?_, ?_⟩⟩
  · by_contra hng
    push_neg at hng
    obtain ⟨e, he⟩ := h1 hng
    rw [hok] at he
    exact Except.noConfusion he
  · by_contra hng
    push_neg at hng
    obtain ⟨e, he⟩ := h2 hng
    rw [hok] at he
    exact Except.noConfusion he
  · by_contra hng
    push_neg at hng
    obtain ⟨e, he⟩ := h3 (by omega)
    rw [hok] at he
    exact Except.noConfusion he

/-- Witness for the amended C9: the default set with
`Evidence.MaxAgeNumBlocks = 0` is rejected by `ValidateBasic`. -/
theorem evidence_bounds_enforced_witness :
    ∃ e, ConsensusParams.ValidateBasic
      { DefaultConsensusParams with
          Evidence := { DefaultEvidenceParams with MaxAgeNumBlocks := 0 } } =
        .error e :=
  (evidence_bounds_enforced
    { DefaultConsensusParams with
        Evidence := { DefaultEvidenceParams with MaxAgeNumBlocks := 0 } }).1
    (by decide)

/-- C1 (code bug): with the current vote-extension enable height 0
(disabled) and any height `h ≥ 1`, the source rejects EVERY `Abci` delta
proposing a nonzero value — even a strictly future one — because the final
check of `validateUpdateABCI` compares the current value against `h`
without the `≠ 0` guard, and `0 ≤ h` always holds.  The claim (and the
spec, scenario 2) say such a delta must be accepted. -/
theorem vote_ext_enable_always_rejected (params : ConsensusParams)
    (delta : ProtoConsensusParams) (h next : Int) (hh : 1 ≤ h)
    (hcur : params.ABCI.VoteExtensionsEnableHeight = 0) (hnext : next ≠ 0)
    (ha : delta.Abci = some { VoteExtensionsEnableHeight := next }) :
    ∃ e, params.ValidateUpdate delta h = .error e := by
  obtain ⟨e, he⟩ := validateUpdateABCI_error_of_le params next h
    (by omega) (by omega)
  exact ⟨e, ValidateUpdate_abci_error params delta h _ e ha he⟩

/-- Witness for C1's failing input: current set all defaults (enable height
0), `h = 10`, delta proposes 50 — the code rejects what the claim says is
accepted. -/
theorem vote_ext_enable_always_rejected_witness :
    ∃ e, ConsensusParams.ValidateUpdate DefaultConsensusParams
      { Block := none, Evidence := none, Validator := none, Version := none,
        Abci := some { VoteExtensionsEnableHeight := 50 }, Synchrony := none,
        Pbts := none } 10 = .error e :=
  vote_ext_enable_always_rejected DefaultConsensusParams _ 10 50
    (by decide) rfl (by decide) rfl

/-- C2 counterexample: with the feature already active (current enable
height 50 ≤ h = 60), a delta re-proposing the current value 50 itself is
ACCEPTED by `ValidateUpdate` (the first check of `validateUpdateABCI`
short-circuits on equality), contradicting the claim that every `Abci`
delta is rejected in that state. -/
theorem abci_reproposal_accepted_cex :
    ConsensusParams.ValidateUpdate
      { DefaultConsensusParams with ABCI := { VoteExtensionsEnableHeight := 50 } }
      { Block := none, Evidence := none, Validator := none, Version := none,
        Abci := some { VoteExtensionsEnableHeight := 50 }, Synchrony := none,
        Pbts := none } 60 = .ok () := rfl

/-- C2 amended: once the current vote-extension enable height `cur`
satisfies `cur ≠ 0 ∧ cur ≤ h`, every `Abci` delta proposing a value
DIFFERENT from `cur` is rejected by `ValidateUpdate`; a delta re-proposing
`cur` itself is accepted as a no-op. -/
theorem abci_active_rejects_changed_value (params : ConsensusParams)
    (delta : ProtoConsensusParams) (h next : Int) (hh : 1 ≤ h)
    (h0 : params.ABCI.VoteExtensionsEnableHeight ≠ 0)
    (hle : params.ABCI.VoteExtensionsEnableHeight ≤ h)
    (ha : delta.Abci = some { VoteExtensionsEnableHeight := next })
    (hne : next ≠ params.ABCI.VoteExtensionsEnableHeight) :
    ∃ e, params.ValidateUpdate delta h = .error e := by
  obtain ⟨e, he⟩ := validateUpdateABCI_error_of_le params next h hle hne
  exact ⟨e, ValidateUpdate_abci_error params delta h _ e ha he⟩

/-- Witness for the amended C2: current enable height 50, `h = 60`, delta
proposes 200 (spec scenario 3). -/
theorem abci_active_rejects_changed_value_witness :
    ∃ e, ConsensusParams.ValidateUpdate
      { DefaultConsensusParams with ABCI := { VoteExtensionsEnableHeight := 50 } }
      { Block := none, Evidence := none, Validator := none, Version := none,
        Abci := some { VoteExtensionsEnableHeight := 200 }, Synchrony := none,
        Pbts := none } 60 = .error e :=
  abci_active_rejects_changed_value _ _ 60 200 (by decide) (by decide)
    (by decide) rfl (by decide)

/-- C3: for a delta whose `Pbts` sub-message is present, `ValidateUpdate`
rejects whenever the current PBTS enable height is nonzero (whatever the
proposed value, whatever the `Abci` sub-message); and when the current
PBTS enable height is 0 and no `Abci` sub-message accompanies the delta,
it accepts exactly when the proposed height is strictly greater than `h`. -/
theorem pbts_update_guard (params : ConsensusParams) (delta : ProtoConsensusParams)
    (h next : Int) (hh : 1 ≤ h) (hp : delta.Pbts = some { PbtsEnableHeight := next }) :
    (params.PBTS.PBTSEnableHeight ≠ 0 → ∃ e, params.ValidateUpdate delta h = .error e) ∧
    (params.PBTS.PBTSEnableHeight = 0 → delta.Abci = none →
      (params.ValidateUpdate delta h = .ok () ↔ h < next)) := by
  constructor
  · intro hcur
    have hpb : validateUpdatePBTS params { PbtsEnableHeight := next } h =
        .error "pbts already enabled" := by
      simp [validateUpdatePBTS, hcur]
    match hab : delta.Abci with
    | none =>
      exact ⟨"pbts already enabled",
        by simp [ConsensusParams.ValidateUpdate, hab, hp, hpb]⟩
    | some a =>
      match habr : validateUpdateABCI params a h with
      | .error e =>
        exact ⟨e, by simp [ConsensusParams.ValidateUpdate, hab, habr]⟩
      | .ok () =>
        exact ⟨"pbts already enabled",
          by simp [ConsensusParams.ValidateUpdate, hab, habr, hp, hpb]⟩
  · intro hcur hab
    simp only [ConsensusParams.ValidateUpdate, hab, hp, validateUpdatePBTS, hcur]
    split_ifs with h1 h2 <;>
      first
        | omega
        | (constructor <;> intro hc <;> first | omega | simp_all)

/-- Witness for C3: current PBTS enable height 0, `h = 10`, delta proposes
50 with no `Abci` sub-message present. -/
theorem pbts_update_guard_witness :
    ((DefaultConsensusParams.PBTS.PBTSEnableHeight ≠ 0 →
      ∃ e, ConsensusParams.ValidateUpdate DefaultConsensusParams
        { Block := none, Evidence := none, Validator := none, Version := none,
          Abci := none, Synchrony := none,
          Pbts := some { PbtsEnableHeight := 50 } } 10 = .error e) ∧
    (DefaultConsensusParams.PBTS.PBTSEnableHeight = 0 →
      (ProtoConsensusParams.Abci
        { Block := none, Evidence := none, Validator := none, Version := none,
          Abci := none, Synchrony := none,
          Pbts := some { PbtsEnableHeight := 50 } }) = none →
      (ConsensusParams.ValidateUpdate DefaultConsensusParams
        { Block := none, Evidence := none, Validator := none, Version := none,
          Abci := none, Synchrony := none,
          Pbts := some { PbtsEnableHeight := 50 } } 10 = .ok () ↔ (10 : Int) < 50))) :=
  pbts_update_guard DefaultConsensusParams _ 10 50 (by decide) rfl

/-- Witness for C4: current enable height 50, height 10, proposed value 0
(spec scenario 4). -/
theorem vote_ext_disable_rejected_witness :
    ConsensusParams.ValidateUpdate
      { DefaultConsensusParams with ABCI := { VoteExtensionsEnableHeight := 50 } }
      { Block := none, Evidence := none, Validator := none, Version := none,
        Abci := some { VoteExtensionsEnableHeight := 0 }, Synchrony := none,
        Pbts := none } 10 =
      .error "vote extensions cannot be disabled once enabled" :=
  vote_ext_disable_rejected _ _ 10 (by decide) (by decide) rfl
